import Mathlib

/-!
Shallow embedding of the decompression layer of `fhttp` (file `decompress.go`).

The Go code dispatches on a response's `Content-Encoding` header, wraps the
response body in one of five lazy decoder wrappers (gzip, brotli,
zlib-wrapped deflate, raw deflate, zstd), and normalizes the response
metadata for the gzip/brotli/zstd branches.  The underlying codec libraries
(`gzip.NewReader`, `brotli.NewReader`, `zlib.NewReader`, `flate.NewReader`,
`zstd.NewReader` and the reads of the decoders they build) are external
collaborators: they are modelled as an oracle structure `Codecs` that every
stateful operation is parameterized over.  Byte streams are modelled as
lists of bytes (as `Nat`) followed by an optional error, and every Go method
becomes an explicit state-passing function.
-/

namespace Fhttp

/-- Errors of the Go `io`/codec layer, abstractly: `io.EOF`,
`io.ErrUnexpectedEOF`, other I/O errors and codec errors tagged by a number. -/
inductive GoError where
  | eof
  | errUnexpectedEOF
  | ioErr (tag : Nat)
  | codecErr (tag : Nat)
deriving DecidableEq

/-- Abstract handle for a `*gzip.Reader` instance built by the external
gzip library; its behavior lives in the `Codecs` oracle. -/
structure GzipDec where
  tag : Nat
deriving DecidableEq

/-- Abstract handle for a `*brotli.Reader` instance. -/
structure BrDec where
  tag : Nat
deriving DecidableEq

/-- Abstract handle for the `io.ReadCloser` returned by `zlib.NewReader`. -/
structure ZlibDec where
  tag : Nat
deriving DecidableEq

/-- Abstract handle for the `io.ReadCloser` returned by `flate.NewReader`. -/
structure FlateDec where
  tag : Nat
deriving DecidableEq

/-- Abstract handle for a `*zstd.Decoder` instance. -/
structure ZstdDec where
  tag : Nat
deriving DecidableEq

/-- The state of a response body (`io.ReadCloser`):
either an underlying source stream (remaining bytes plus the error the
stream reports once the bytes are exhausted, clean `io.EOF` when `none`),
the reconstructed stream `io.NopCloser(io.MultiReader(bytes.NewReader(pre), inner))`
built in the deflate branch, or one of the five lazy wrapper structs of
`decompress.go`, each carrying its `body`, `r` and `err` fields. -/
inductive Body where
  | source (data : List Nat) (trailErr : Option GoError)
  | reconstructed (pre : List Nat) (inner : Body)
  | gzipR (body : Body) (r : Option GzipDec) (err : Option GoError)
  | brR (body : Body) (r : Option BrDec) (err : Option GoError)
  | zlibDeflateR (body : Body) (r : Option ZlibDec) (err : Option GoError)
  | deflateR (body : Body) (r : Option FlateDec) (err : Option GoError)
  | zstdR (body : Body) (r : Option ZstdDec) (err : Option GoError)
deriving DecidableEq

/-- Oracle for the external codec libraries.  A constructor takes the body it
will read from and returns the (possibly partially consumed) body together
with the decoder handle, or an error where the Go constructor can fail
(`brotli.NewReader` and `flate.NewReader` cannot fail and perform no I/O at
construction time).  A decoder read takes the decoder and the shared body,
and returns the updated decoder and body, the decompressed bytes produced,
and an optional error. -/
structure Codecs where
  gzipNew : Body → Body × Except GoError GzipDec
  gzipRead : GzipDec → Body → Nat → (GzipDec × Body) × List Nat × Option GoError
  brNew : Body → BrDec
  brRead : BrDec → Body → Nat → (BrDec × Body) × List Nat × Option GoError
  zlibNew : Body → Body × Except GoError ZlibDec
  zlibRead : ZlibDec → Body → Nat → (ZlibDec × Body) × List Nat × Option GoError
  flateNew : Body → FlateDec
  flateRead : FlateDec → Body → Nat → (FlateDec × Body) × List Nat × Option GoError
  zstdNew : Body → Body × Except GoError ZstdDec
  zstdRead : ZstdDec → Body → Nat → (ZstdDec × Body) × List Nat × Option GoError

/-- Result of one `Read(p)` call on a wrapper: the updated `(body, r, err)`
fields of the wrapper struct, the bytes written into `p`, and the returned
error. -/
abbrev ReadRes (δ : Type) := (Body × Option δ × Option GoError) × List Nat × Option GoError

/-- Method `gzipReader.Read`: sticky error check, lazy `gzip.NewReader` on
first read with the error recorded in `err` on failure, then delegation to
the constructed decoder. -/
def gzipReaderRead (C : Codecs) (body : Body) (r : Option GzipDec)
    (err : Option GoError) (p : Nat) : ReadRes GzipDec :=
  match err with
  | some e => ((body, r, some e), [], some e)
  | none =>
    match r with
    | none =>
      match C.gzipNew body with
      | (body1, .error e) => ((body1, none, some e), [], some e)
      | (body1, .ok d) =>
        let ((d1, body2), bs, e) := C.gzipRead d body1 p
        ((body2, some d1, none), bs, e)
    | some d =>
      let ((d1, body1), bs, e) := C.gzipRead d body p
      ((body1, some d1, none), bs, e)

/-- Method `brReader.Read`: `brotli.NewReader` cannot fail, so the `err`
field is checked but never set. -/
def brReaderRead (C : Codecs) (body : Body) (r : Option BrDec)
    (err : Option GoError) (p : Nat) : ReadRes BrDec :=
  match err with
  | some e => ((body, r, some e), [], some e)
  | none =>
    match r with
    | none =>
      let d := C.brNew body
      let ((d1, body1), bs, e) := C.brRead d body p
      ((body1, some d1, none), bs, e)
    | some d =>
      let ((d1, body1), bs, e) := C.brRead d body p
      ((body1, some d1, none), bs, e)

/-- Method `zlibDeflateReader.Read`: like gzip, with `zlib.NewReader`. -/
def zlibDeflateReaderRead (C : Codecs) (body : Body) (r : Option ZlibDec)
    (err : Option GoError) (p : Nat) : ReadRes ZlibDec :=
  match err with
  | some e => ((body, r, some e), [], some e)
  | none =>
    match r with
    | none =>
      match C.zlibNew body with
      | (body1, .error e) => ((body1, none, some e), [], some e)
      | (body1, .ok d) =>
        let ((d1, body2), bs, e) := C.zlibRead d body1 p
        ((body2, some d1, none), bs, e)
    | some d =>
      let ((d1, body1), bs, e) := C.zlibRead d body p
      ((body1, some d1, none), bs, e)

/-- Method `deflateReader.Read`: `flate.NewReader` cannot fail, so the `err`
field is checked but never set. -/
def deflateReaderRead (C : Codecs) (body : Body) (r : Option FlateDec)
    (err : Option GoError) (p : Nat) : ReadRes FlateDec :=
  match err with
  | some e => ((body, r, some e), [], some e)
  | none =>
    match r with
    | none =>
      let d := C.flateNew body
      let ((d1, body1), bs, e) := C.flateRead d body p
      ((body1, some d1, none), bs, e)
    | some d =>
      let ((d1, body1), bs, e) := C.flateRead d body p
      ((body1, some d1, none), bs, e)

/-- Method `zstdReader.Read`: like gzip, with `zstd.NewReader`. -/
def zstdReaderRead (C : Codecs) (body : Body) (r : Option ZstdDec)
    (err : Option GoError) (p : Nat) : ReadRes ZstdDec :=
  match err with
  | some e => ((body, r, some e), [], some e)
  | none =>
    match r with
    | none =>
      match C.zstdNew body with
      | (body1, .error e) => ((body1, none, some e), [], some e)
      | (body1, .ok d) =>
        let ((d1, body2), bs, e) := C.zstdRead d body1 p
        ((body2, some d1, none), bs, e)
    | some d =>
      let ((d1, body1), bs, e) := C.zstdRead d body p
      ((body1, some d1, none), bs, e)

/-- One `Read` call of at most `p` bytes on a body.  A source stream returns
its next `min p len` bytes, or `(0, err)` once exhausted (`io.EOF` when no
other error is recorded).  The reconstructed stream follows
`io.MultiReader`: it serves the prefix first and moves on to the inner body
once the prefix is exhausted.  Wrapper bodies step by their `Read` method. -/
def bodyRead (C : Codecs) : Body → Nat → Body × List Nat × Option GoError
  | .source [] te, _ => (.source [] te, [], some (te.getD .eof))
  | .source (x :: d) te, p =>
      (.source (List.drop p (x :: d)) te, List.take p (x :: d), none)
  | .reconstructed [] inner, p =>
      let (inner1, bs, e) := bodyRead C inner p
      (.reconstructed [] inner1, bs, e)
  | .reconstructed (x :: pre) inner, p =>
      (.reconstructed (List.drop p (x :: pre)) inner, List.take p (x :: pre), none)
  | .gzipR b r e, p =>
      let ((b1, r1, e1), bs, re) := gzipReaderRead C b r e p
      (.gzipR b1 r1 e1, bs, re)
  | .brR b r e, p =>
      let ((b1, r1, e1), bs, re) := brReaderRead C b r e p
      (.brR b1 r1 e1, bs, re)
  | .zlibDeflateR b r e, p =>
      let ((b1, r1, e1), bs, re) := zlibDeflateReaderRead C b r e p
      (.zlibDeflateR b1 r1 e1, bs, re)
  | .deflateR b r e, p =>
      let ((b1, r1, e1), bs, re) := deflateReaderRead C b r e p
      (.deflateR b1 r1 e1, bs, re)
  | .zstdR b r e, p =>
      let ((b1, r1, e1), bs, re) := zstdReaderRead C b r e p
      (.zstdR b1 r1 e1, bs, re)

/-- The read loop of `io.ReadAtLeast`: keep reading until `min` bytes were
collected or a read reports an error.  `fuel` bounds the number of reads;
for the source and reconstructed bodies every read either makes progress or
errors, so the fuel used below (3, for `min = 2`) is never exhausted. -/
def readAtLeastLoop (C : Codecs) : Nat → Body → List Nat → Nat →
    Body × List Nat × Option GoError
  | 0, b, acc, _ => (b, acc, none)
  | fuel + 1, b, acc, min =>
    if acc.length ≥ min then (b, acc, none)
    else
      let (b1, bs, e) := bodyRead C b (min - acc.length)
      match e with
      | some e1 => (b1, acc ++ bs, some e1)
      | none => readAtLeastLoop C fuel b1 (acc ++ bs) min

/-- The error `io.ReadFull` reports for a short read: `io.ErrUnexpectedEOF`
when some bytes were read and the stream then hit `io.EOF`, otherwise the
stream's own error. -/
def readFullShortErr (bs : List Nat) (e : Option GoError) : GoError :=
  if bs.length > 0 ∧ e = some .eof then .errUnexpectedEOF else e.getD .eof

/-- The call `io.ReadFull(res.Body, header[:])` for a 2-byte buffer: the
updated body and either the two bytes read or the error. -/
def readFull2 (C : Codecs) (b : Body) : Body × Except GoError (Nat × Nat) :=
  match readAtLeastLoop C 3 b [] 2 with
  | (b1, x :: y :: _, _) => (b1, .ok (x, y))
  | (b1, bs, e) => (b1, .error (readFullShortErr bs e))

/-- Header-byte constant `zlibMethodDeflate = 0x78`. -/
def zlibMethodDeflate : Nat := 0x78

/-- Header-byte constant `zlibLevelDefault = 0x9C`. -/
def zlibLevelDefault : Nat := 0x9C

/-- Header-byte constant `zlibLevelLow = 0x01`. -/
def zlibLevelLow : Nat := 0x01

/-- Header-byte constant `zlibLevelMedium = 0x5E`. -/
def zlibLevelMedium : Nat := 0x5E

/-- Header-byte constant `zlibLevelBest = 0xDA`. -/
def zlibLevelBest : Nat := 0xDA

/-- Modelled from the spec: the response header is a mapping from string
keys to string values with first-match-wins semantics for repeated keys
(the `Response`/`Header` types live in this repository outside
`decompress.go`). -/
abbrev Header := List (String × String)

/-- The header key `Content-Encoding`. -/
def contentEncodingKey : String := "Content-Encoding"

/-- The header key `Content-Length`. -/
def contentLengthKey : String := "Content-Length"

/-- The encoding token `gzip`. -/
def gzipTok : String := "gzip"

/-- The encoding token `br`. -/
def brTok : String := "br"

/-- The encoding token `deflate`. -/
def deflateTok : String := "deflate"

/-- The encoding token `zstd`. -/
def zstdTok : String := "zstd"

/-- Modelled from the spec: `Header.Get` returns the first value stored for
the key, or the empty string when the key is absent. -/
def headerGet (h : Header) (k : String) : String :=
  match h.find? (fun p => p.1 == k) with
  | some p => p.2
  | none => ""

/-- Modelled from the spec: `Header.Del` removes every entry stored for the
key. -/
def headerDel (h : Header) (k : String) : Header :=
  h.filter (fun p => p.1 != k)

/-- Modelled from the spec: the response fields `DecompressBody` touches — a
header mapping, a readable/closable body, the known-uncompressed flag, and
the declared content length (`-1` means unknown). -/
structure Response where
  Header : Header
  Body : Body
  Uncompressed : Bool
  ContentLength : Int
deriving DecidableEq

/-- The common tail of the `switch` in `DecompressBody` (reached by the
gzip/br/zstd cases): delete the `Content-Encoding` and `Content-Length`
header entries, set `Uncompressed`, and set `ContentLength` to `-1`. -/
def finishWrap (res : Response) : Response :=
  { res with
    Header := headerDel (headerDel res.Header contentEncodingKey) contentLengthKey
    Uncompressed := true
    ContentLength := -1 }

/-- Function `DecompressBody`: dispatch on the `Content-Encoding` header.
The gzip/br/zstd cases wrap the body in the matching lazy reader and fall
through to `finishWrap`.  The deflate case reads two bytes, returns at once
on a read error, otherwise rebuilds the stream as
`NopCloser(MultiReader(header, body))`, attaches the zlib-aware or
raw-deflate reader depending on the two bytes (or none when the first byte
is not `0x78`), and returns without the common tail.  Any other token is a
no-op. -/
def DecompressBody (C : Codecs) (res : Response) : Response :=
  let ce := headerGet res.Header contentEncodingKey
  if ce = gzipTok then
    finishWrap { res with Body := .gzipR res.Body none none }
  else if ce = brTok then
    finishWrap { res with Body := .brR res.Body none none }
  else if ce = deflateTok then
    match readFull2 C res.Body with
    | (b1, .error _) => { res with Body := b1 }
    | (b1, .ok (h0, h1)) =>
      let rb : Body := .reconstructed [h0, h1] b1
      if h0 = zlibMethodDeflate ∧
          (h1 = zlibLevelDefault ∨ h1 = zlibLevelLow ∨
           h1 = zlibLevelMedium ∨ h1 = zlibLevelBest) then
        { res with Body := .zlibDeflateR rb none none }
      else if h0 = zlibMethodDeflate then
        { res with Body := .deflateR rb none none }
      else
        { res with Body := rb }
  else if ce = zstdTok then
    finishWrap { res with Body := .zstdR res.Body none none }
  else
    res

/-- What a wrapper's `Close` closes: the stream held in its `body` field or
a constructed decompressor instance. -/
inductive ClosedThing where
  | srcBody (b : Body)
  | zlibDecoder (d : ZlibDec)
  | flateDecoder (d : FlateDec)
deriving DecidableEq

/-- Method `gzipReader.Close`: `return gz.body.Close()`.  Always closes the
body field; total (`none` would model a nil-method panic, which cannot
happen here). -/
def gzipReaderClose (body : Body) (r : Option GzipDec) (err : Option GoError) :
    Option ClosedThing :=
  some (.srcBody body)

/-- Method `brReader.Close`: `return br.body.Close()`. -/
def brReaderClose (body : Body) (r : Option BrDec) (err : Option GoError) :
    Option ClosedThing :=
  some (.srcBody body)

/-- Method `zlibDeflateReader.Close`: `return z.r.Close()`.  Calling the
method on a nil `io.ReadCloser` interface panics, modelled as `none`. -/
def zlibDeflateReaderClose (body : Body) (r : Option ZlibDec)
    (err : Option GoError) : Option ClosedThing :=
  match r with
  | none => none
  | some d => some (.zlibDecoder d)

/-- Method `deflateReader.Close`: `return dr.r.Close()`, panicking (`none`)
when `dr.r` is still nil. -/
def deflateReaderClose (body : Body) (r : Option FlateDec)
    (err : Option GoError) : Option ClosedThing :=
  match r with
  | none => none
  | some d => some (.flateDecoder d)

/-- Method `zstdReader.Close`: `return z.body.Close()`. -/
def zstdReaderClose (body : Body) (r : Option ZstdDec) (err : Option GoError) :
    Option ClosedThing :=
  some (.srcBody body)

/-- Read a body to exhaustion one byte at a time, stopping at the first
read that reports an error (for a source stream: at `io.EOF`).  `fuel`
bounds the number of reads. -/
def drainBody (C : Codecs) : Nat → Body → List Nat
  | 0, _ => []
  | fuel + 1, b =>
    match bodyRead C b 1 with
    | (b1, bs, none) => bs ++ drainBody C fuel b1
    | (_, bs, some _) => bs

/-- The stream a deflate-branch decoder reads from: the `body` field of the
attached wrapper, or the body itself on the no-decoder passthrough path. -/
def handedBody : Body → Body
  | .zlibDeflateR b _ _ => b
  | .deflateR b _ _ => b
  | b => b

/-- A concrete codec oracle whose fallible constructors all fail, used to
exercise the failure paths on concrete inputs. -/
def testC : Codecs :=
  { gzipNew := fun b => (b, .error (.codecErr 1))
    gzipRead := fun d b _ => ((d, b), [], some .eof)
    brNew := fun _ => ⟨0⟩
    brRead := fun d b _ => ((d, b), [], some .eof)
    zlibNew := fun b => (b, .error (.codecErr 2))
    zlibRead := fun d b _ => ((d, b), [], some .eof)
    flateNew := fun _ => ⟨0⟩
    flateRead := fun d b _ => ((d, b), [], some .eof)
    zstdNew := fun b => (b, .error (.codecErr 3))
    zstdRead := fun d b _ => ((d, b), [], some .eof) }

/-- A second concrete oracle sharing all read functions with `testC` but
with succeeding constructors, used to show results do not depend on the
constructor components. -/
def testC2 : Codecs :=
  { testC with
    gzipNew := fun b => (b, .ok ⟨5⟩)
    zlibNew := fun b => (b, .ok ⟨5⟩)
    zstdNew := fun b => (b, .ok ⟨5⟩) }

/-- C5: for the variants whose constructor can fail (gzip, zlib-deflate,
zstd), a construction failure with error `e` on the first `Read` returns
`(0, e)` and records `e` in the `err` field; and for all five variants, once
`err` holds `e` every `Read` returns `(0, e)` with the state unchanged, for
every codec oracle — so construction is never attempted again. -/
theorem sticky_error_reads :
    (∀ (C : Codecs) (b b1 : Body) (e : GoError) (p : Nat),
        C.gzipNew b = (b1, .error e) →
        gzipReaderRead C b none none p = ((b1, none, some e), [], some e))
  ∧ (∀ (C : Codecs) (b b1 : Body) (e : GoError) (p : Nat),
        C.zlibNew b = (b1, .error e) →
        zlibDeflateReaderRead C b none none p = ((b1, none, some e), [], some e))
  ∧ (∀ (C : Codecs) (b b1 : Body) (e : GoError) (p : Nat),
        C.zstdNew b = (b1, .error e) →
        zstdReaderRead C b none none p = ((b1, none, some e), [], some e))
  ∧ (∀ (C : Codecs) (b : Body) (r : Option GzipDec) (e : GoError) (p : Nat),
        gzipReaderRead C b r (some e) p = ((b, r, some e), [], some e))
  ∧ (∀ (C : Codecs) (b : Body) (r : Option BrDec) (e : GoError) (p : Nat),
        brReaderRead C b r (some e) p = ((b, r, some e), [], some e))
  ∧ (∀ (C : Codecs) (b : Body) (r : Option ZlibDec) (e : GoError) (p : Nat),
        zlibDeflateReaderRead C b r (some e) p = ((b, r, some e), [], some e))
  ∧ (∀ (C : Codecs) (b : Body) (r : Option FlateDec) (e : GoError) (p : Nat),
        deflateReaderRead C b r (some e) p = ((b, r, some e), [], some e))
  ∧ (∀ (C : Codecs) (b : Body) (r : Option ZstdDec) (e : GoError) (p : Nat),
        zstdReaderRead C b r (some e) p = ((b, r, some e), [], some e)) := by
  refine ⟨fun C b b1 e p h => ?_, fun C b b1 e p h => ?_, fun C b b1 e p h => ?_,
    fun C b r e p => rfl, fun C b r e p => rfl, fun C b r e p => rfl,
    fun C b r e p => rfl, fun C b r e p => rfl⟩
  · simp [gzipReaderRead, h]
  · simp [zlibDeflateReaderRead, h]
  · simp [zstdReaderRead, h]

/-- Witness for C5: under the oracle `testC`, whose gzip constructor fails
with `codecErr 1`, the first read on a fresh gzip wrapper over an empty
source returns that error, by the theorem applied at this concrete input. -/
theorem sticky_error_reads_witness :
    testC.gzipNew (.source [] none) = (.source [] none, .error (.codecErr 1))
  ∧ gzipReaderRead testC (.source [] none) none none 1 =
      ((.source [] none, none, some (.codecErr 1)), [], some (.codecErr 1)) :=
  ⟨rfl, sticky_error_reads.1 testC (.source [] none) (.source [] none)
    (.codecErr 1) 1 rfl⟩

/-- C6: wrapping itself is a total function that neither reads the source
nor constructs a decoder: for gzip/br/zstd the new body is the wrapper with
the untouched original body and `r = none`, `err = none`.  Once a decoder is
constructed (`r = some d`), a `Read` never consults the constructor again —
the result is the same under any two oracles agreeing on the decoder read
functions — and the decoder stays constructed. -/
theorem lazy_construction_once :
    (∀ (C : Codecs) (res : Response),
        headerGet res.Header contentEncodingKey = gzipTok →
        (DecompressBody C res).Body = .gzipR res.Body none none)
  ∧ (∀ (C : Codecs) (res : Response),
        headerGet res.Header contentEncodingKey = brTok →
        (DecompressBody C res).Body = .brR res.Body none none)
  ∧ (∀ (C : Codecs) (res : Response),
        headerGet res.Header contentEncodingKey = zstdTok →
        (DecompressBody C res).Body = .zstdR res.Body none none)
  ∧ (∀ (C C1 : Codecs) (b : Body) (d : GzipDec) (p : Nat),
        C.gzipRead = C1.gzipRead →
        gzipReaderRead C b (some d) none p = gzipReaderRead C1 b (some d) none p
      ∧ ((gzipReaderRead C b (some d) none p).1.2.1).isSome = true)
  ∧ (∀ (C C1 : Codecs) (b : Body) (d : BrDec) (p : Nat),
        C.brRead = C1.brRead →
        brReaderRead C b (some d) none p = brReaderRead C1 b (some d) none p
      ∧ ((brReaderRead C b (some d) none p).1.2.1).isSome = true)
  ∧ (∀ (C C1 : Codecs) (b : Body) (d : ZlibDec) (p : Nat),
        C.zlibRead = C1.zlibRead →
        zlibDeflateReaderRead C b (some d) none p =
          zlibDeflateReaderRead C1 b (some d) none p
      ∧ ((zlibDeflateReaderRead C b (some d) none p).1.2.1).isSome = true)
  ∧ (∀ (C C1 : Codecs) (b : Body) (d : FlateDec) (p : Nat),
        C.flateRead = C1.flateRead →
        deflateReaderRead C b (some d) none p = deflateReaderRead C1 b (some d) none p
      ∧ ((deflateReaderRead C b (some d) none p).1.2.1).isSome = true)
  ∧ (∀ (C C1 : Codecs) (b : Body) (d : ZstdDec) (p : Nat),
        C.zstdRead = C1.zstdRead →
        zstdReaderRead C b (some d) none p = zstdReaderRead C1 b (some d) none p
      ∧ ((zstdReaderRead C b (some d) none p).1.2.1).isSome = true) := by
  refine ⟨fun C res h => ?_, fun C res h => ?_, fun C res h => ?_,
    fun C C1 b d p h => ?_, fun C C1 b d p h => ?_, fun C C1 b d p h => ?_,
    fun C C1 b d p h => ?_, fun C C1 b d p h => ?_⟩
  · simp [DecompressBody, h, finishWrap]
  · simp [DecompressBody, h, finishWrap, brTok, gzipTok]
  · simp [DecompressBody, h, finishWrap, zstdTok, gzipTok, brTok, deflateTok]
  · rcases hc : C.gzipRead d b p with ⟨⟨d1, b1⟩, bs, e⟩
    exact ⟨by simp [gzipReaderRead, hc, ← h], by simp [gzipReaderRead, hc]⟩
  · rcases hc : C.brRead d b p with ⟨⟨d1, b1⟩, bs, e⟩
    exact ⟨by simp [brReaderRead, hc, ← h], by simp [brReaderRead, hc]⟩
  · rcases hc : C.zlibRead d b p with ⟨⟨d1, b1⟩, bs, e⟩
    exact ⟨by simp [zlibDeflateReaderRead, hc, ← h],
      by simp [zlibDeflateReaderRead, hc]⟩
  · rcases hc : C.flateRead d b p with ⟨⟨d1, b1⟩, bs, e⟩
    exact ⟨by simp [deflateReaderRead, hc, ← h], by simp [deflateReaderRead, hc]⟩
  · rcases hc : C.zstdRead d b p with ⟨⟨d1, b1⟩, bs, e⟩
    exact ⟨by simp [zstdReaderRead, hc, ← h], by simp [zstdReaderRead, hc]⟩

/-- Witness for C6: a concrete gzip response is wrapped without touching its
source or constructing a decoder, and an already-constructed wrapper reads
the same under `testC` and `testC2`, which differ in their constructors. -/
theorem lazy_construction_once_witness :
    headerGet [(contentEncodingKey, gzipTok)] contentEncodingKey = gzipTok
  ∧ (DecompressBody testC
        ⟨[(contentEncodingKey, gzipTok)], .source [9] none, false, 3⟩).Body =
      .gzipR (.source [9] none) none none
  ∧ testC.gzipRead = testC2.gzipRead
  ∧ gzipReaderRead testC (.source [9] none) (some ⟨5⟩) none 1 =
      gzipReaderRead testC2 (.source [9] none) (some ⟨5⟩) none 1 :=
  ⟨rfl,
    lazy_construction_once.1 testC
      ⟨[(contentEncodingKey, gzipTok)], .source [9] none, false, 3⟩ rfl,
    rfl,
    (lazy_construction_once.2.2.2.1 testC testC2 (.source [9] none) ⟨5⟩ 1 rfl).1⟩

/-- C9: `Close` on the gzip, brotli and zstd wrappers always closes the
stream in the wrapper's `body` field, in every state, and never a decoder;
`Close` on the zlib-wrapped-deflate and raw-deflate wrappers closes the
constructed decompressor instance instead. -/
theorem close_ownership :
    (∀ (b : Body) (r : Option GzipDec) (e : Option GoError),
        gzipReaderClose b r e = some (.srcBody b))
  ∧ (∀ (b : Body) (r : Option BrDec) (e : Option GoError),
        brReaderClose b r e = some (.srcBody b))
  ∧ (∀ (b : Body) (r : Option ZstdDec) (e : Option GoError),
        zstdReaderClose b r e = some (.srcBody b))
  ∧ (∀ (b : Body) (d : ZlibDec) (e : Option GoError),
        zlibDeflateReaderClose b (some d) e = some (.zlibDecoder d))
  ∧ (∀ (b : Body) (d : FlateDec) (e : Option GoError),
        deflateReaderClose b (some d) e = some (.flateDecoder d)) :=
  ⟨fun b r e => rfl, fun b r e => rfl, fun b r e => rfl,
    fun b d e => rfl, fun b d e => rfl⟩

/-- C10: closing a deflate-family wrapper whose decoder was never
constructed (`r = none`) calls a method on a nil interface — the panic
branch (`none`) of the embedding — while the gzip/brotli/zstd `Close` is
total in every state. -/
theorem close_nil_decoder_panics :
    (∀ (b : Body) (e : Option GoError), zlibDeflateReaderClose b none e = none)
  ∧ (∀ (b : Body) (e : Option GoError), deflateReaderClose b none e = none)
  ∧ (∀ (b : Body) (r : Option GzipDec) (e : Option GoError),
        (gzipReaderClose b r e).isSome = true)
  ∧ (∀ (b : Body) (r : Option BrDec) (e : Option GoError),
        (brReaderClose b r e).isSome = true)
  ∧ (∀ (b : Body) (r : Option ZstdDec) (e : Option GoError),
        (zstdReaderClose b r e).isSome = true) :=
  ⟨fun b e => rfl, fun b e => rfl, fun b r e => rfl, fun b r e => rfl,
    fun b r e => rfl⟩

/-- Deleting a header key leaves only entries of other keys, all of them
already present before. -/
lemma headerDel_spec (h : Header) (k : String) (p : String × String)
    (hp : p ∈ headerDel h k) : p ∈ h ∧ p.1 ≠ k := by
  simpa [headerDel, List.mem_filter, bne_iff_ne] using hp

/-- C2: for a response declaring `gzip`, `br` or `zstd`, `DecompressBody`
removes the `Content-Encoding` and `Content-Length` header entries, sets the
`Uncompressed` flag and sets `ContentLength` to `-1`. -/
theorem decompressBody_normalizes (C : Codecs) (res : Response)
    (h : headerGet res.Header contentEncodingKey = gzipTok ∨
         headerGet res.Header contentEncodingKey = brTok ∨
         headerGet res.Header contentEncodingKey = zstdTok) :
    (∀ p ∈ (DecompressBody C res).Header,
        p.1 ≠ contentEncodingKey ∧ p.1 ≠ contentLengthKey)
  ∧ (DecompressBody C res).Uncompressed = true
  ∧ (DecompressBody C res).ContentLength = -1 := by
  have hH : (DecompressBody C res).Header =
      headerDel (headerDel res.Header contentEncodingKey) contentLengthKey
    ∧ (DecompressBody C res).Uncompressed = true
    ∧ (DecompressBody C res).ContentLength = -1 := by
    rcases h with h | h | h
    · simp [DecompressBody, h, finishWrap]
    · simp [DecompressBody, h, finishWrap, brTok, gzipTok]
    · simp [DecompressBody, h, finishWrap, zstdTok, gzipTok, brTok, deflateTok]
  refine ⟨fun p hp => ?_, hH.2.1, hH.2.2⟩
  rw [hH.1] at hp
  have h2 := headerDel_spec _ _ _ hp
  have h1 := headerDel_spec _ _ _ h2.1
  exact ⟨h1.2, h2.2⟩

/-- Witness for C2: a concrete gzip response with both headers present comes
out with neither header key, the flag set and length `-1`. -/
theorem decompressBody_normalizes_witness :
    headerGet [(contentEncodingKey, gzipTok), (contentLengthKey, "11")]
        contentEncodingKey = gzipTok
  ∧ ((∀ p ∈ (DecompressBody testC
        ⟨[(contentEncodingKey, gzipTok), (contentLengthKey, "11")],
          .source [3] none, false, 11⟩).Header,
        p.1 ≠ contentEncodingKey ∧ p.1 ≠ contentLengthKey)
    ∧ (DecompressBody testC
        ⟨[(contentEncodingKey, gzipTok), (contentLengthKey, "11")],
          .source [3] none, false, 11⟩).Uncompressed = true
    ∧ (DecompressBody testC
        ⟨[(contentEncodingKey, gzipTok), (contentLengthKey, "11")],
          .source [3] none, false, 11⟩).ContentLength = -1) :=
  ⟨rfl, decompressBody_normalizes testC
    ⟨[(contentEncodingKey, gzipTok), (contentLengthKey, "11")],
      .source [3] none, false, 11⟩ (Or.inl rfl)⟩

/-- C4: an unrecognized or absent `Content-Encoding` token leaves the
response entirely unchanged. -/
theorem decompressBody_noop_unrecognized (C : Codecs) (res : Response)
    (h1 : headerGet res.Header contentEncodingKey ≠ gzipTok)
    (h2 : headerGet res.Header contentEncodingKey ≠ brTok)
    (h3 : headerGet res.Header contentEncodingKey ≠ deflateTok)
    (h4 : headerGet res.Header contentEncodingKey ≠ zstdTok) :
    DecompressBody C res = res := by
  simp [DecompressBody, h1, h2, h3, h4]

/-- Witness for C4: a response with no `Content-Encoding` header is returned
unchanged. -/
theorem decompressBody_noop_unrecognized_witness :
    DecompressBody testC
      ⟨[(contentLengthKey, "2")], .source [1, 2] none, false, 2⟩ =
      ⟨[(contentLengthKey, "2")], .source [1, 2] none, false, 2⟩ :=
  decompressBody_noop_unrecognized testC
    ⟨[(contentLengthKey, "2")], .source [1, 2] none, false, 2⟩
    (by decide) (by decide) (by decide) (by decide)

/-- Evaluation of the deflate branch on a source body with at least two
bytes: the peek consumes the two bytes, the stream is reconstructed, and the
wrapper is chosen by the zlib-header check. -/
lemma decompressBody_deflate_source_eq (C : Codecs) (res : Response)
    (b0 b1 : Nat) (rest : List Nat) (te : Option GoError)
    (hce : headerGet res.Header contentEncodingKey = deflateTok)
    (hb : res.Body = .source (b0 :: b1 :: rest) te) :
    DecompressBody C res =
      { res with Body :=
          if b0 = zlibMethodDeflate ∧
              (b1 = zlibLevelDefault ∨ b1 = zlibLevelLow ∨
               b1 = zlibLevelMedium ∨ b1 = zlibLevelBest) then
            .zlibDeflateR (.reconstructed [b0, b1] (.source rest te)) none none
          else if b0 = zlibMethodDeflate then
            .deflateR (.reconstructed [b0, b1] (.source rest te)) none none
          else
            .reconstructed [b0, b1] (.source rest te) } := by
  simp only [DecompressBody, hce, hb]
  rw [if_neg (by decide), if_neg (by decide), if_pos trivial]
  simp [readFull2, readAtLeastLoop, bodyRead]
  split <;> (try split) <;> rfl

/-- C1: deflate disambiguation — first byte `0x78` with a valid zlib FCHECK
second byte selects the zlib-wrapped-deflate reader over the reconstructed
stream; first byte `0x78` with any other second byte selects the raw-deflate
reader; any other first byte attaches no decoder and leaves the
reconstructed still-compressed stream as the body. -/
theorem deflate_dispatch (C : Codecs) (res : Response)
    (b0 b1 : Nat) (rest : List Nat) (te : Option GoError)
    (hce : headerGet res.Header contentEncodingKey = deflateTok)
    (hb : res.Body = .source (b0 :: b1 :: rest) te) :
    (b0 = zlibMethodDeflate →
      (b1 = zlibLevelDefault ∨ b1 = zlibLevelLow ∨
       b1 = zlibLevelMedium ∨ b1 = zlibLevelBest) →
      (DecompressBody C res).Body =
        .zlibDeflateR (.reconstructed [b0, b1] (.source rest te)) none none)
  ∧ (b0 = zlibMethodDeflate →
      ¬(b1 = zlibLevelDefault ∨ b1 = zlibLevelLow ∨
        b1 = zlibLevelMedium ∨ b1 = zlibLevelBest) →
      (DecompressBody C res).Body =
        .deflateR (.reconstructed [b0, b1] (.source rest te)) none none)
  ∧ (b0 ≠ zlibMethodDeflate →
      (DecompressBody C res).Body =
        .reconstructed [b0, b1] (.source rest te)) := by
  rw [decompressBody_deflate_source_eq C res b0 b1 rest te hce hb]
  refine ⟨fun hm hl => ?_, fun hm hl => ?_, fun hm => ?_⟩
  · rw [if_pos ⟨hm, hl⟩]
  · rw [if_neg (fun hc => hl hc.2), if_pos hm]
  · rw [if_neg (fun hc => hm hc.1), if_neg hm]

/-- Witness for C1: the pair `0x78 0x9C` on a concrete deflate response
selects the zlib-wrapped-deflate reader over the reconstructed stream. -/
theorem deflate_dispatch_witness :
    headerGet [(contentEncodingKey, deflateTok)] contentEncodingKey = deflateTok
  ∧ (DecompressBody testC
        ⟨[(contentEncodingKey, deflateTok)],
          .source [0x78, 0x9C, 7] none, false, 3⟩).Body =
      .zlibDeflateR (.reconstructed [0x78, 0x9C] (.source [7] none)) none none :=
  ⟨rfl,
    (deflate_dispatch testC
        ⟨[(contentEncodingKey, deflateTok)],
          .source [0x78, 0x9C, 7] none, false, 3⟩
        0x78 0x9C [7] none rfl rfl).1 rfl (Or.inl rfl)⟩

/-- C3: the deflate branch returns before the common normalization tail:
whatever the body and the outcome of the peek and wrap, the headers, the
`Uncompressed` flag and `ContentLength` are untouched. -/
theorem deflate_skips_normalization (C : Codecs) (res : Response)
    (hce : headerGet res.Header contentEncodingKey = deflateTok) :
    (DecompressBody C res).Header = res.Header
  ∧ (DecompressBody C res).Uncompressed = res.Uncompressed
  ∧ (DecompressBody C res).ContentLength = res.ContentLength := by
  simp only [DecompressBody, hce]
  rw [if_neg (by decide), if_neg (by decide), if_pos trivial]
  rcases hr : readFull2 C res.Body with ⟨b2, x⟩
  cases x with
  | error e => exact ⟨rfl, rfl, rfl⟩
  | ok v =>
    rcases v with ⟨h0, h1⟩
    dsimp only
    split
    · exact ⟨rfl, rfl, rfl⟩
    · split
      · exact ⟨rfl, rfl, rfl⟩
      · exact ⟨rfl, rfl, rfl⟩

/-- Witness for C3: a concrete deflate response that gets the zlib decoder
attached still carries its original headers, flag and length. -/
theorem deflate_skips_normalization_witness :
    ((DecompressBody testC
        ⟨[(contentEncodingKey, deflateTok), (contentLengthKey, "3")],
          .source [0x78, 0x9C, 7] none, false, 3⟩).Header =
      [(contentEncodingKey, deflateTok), (contentLengthKey, "3")])
  ∧ (DecompressBody testC
        ⟨[(contentEncodingKey, deflateTok), (contentLengthKey, "3")],
          .source [0x78, 0x9C, 7] none, false, 3⟩).Uncompressed = false
  ∧ (DecompressBody testC
        ⟨[(contentEncodingKey, deflateTok), (contentLengthKey, "3")],
          .source [0x78, 0x9C, 7] none, false, 3⟩).ContentLength = 3 :=
  deflate_skips_normalization testC
    ⟨[(contentEncodingKey, deflateTok), (contentLengthKey, "3")],
      .source [0x78, 0x9C, 7] none, false, 3⟩ rfl

/-- Draining the reconstructed stream over a source yields the prefix bytes
followed by the source's remaining bytes, for any sufficient fuel. -/
lemma drainBody_reconstructed_source (C : Codecs) :
    ∀ (fuel : Nat) (pre d : List Nat) (te : Option GoError),
      pre.length + d.length < fuel →
      drainBody C fuel (.reconstructed pre (.source d te)) = pre ++ d := by
  intro fuel
  induction fuel with
  | zero => intro pre d te h; omega
  | succ fuel ih =>
    intro pre d te h
    cases pre with
    | cons x pre1 =>
      have : drainBody C (fuel + 1) (.reconstructed (x :: pre1) (.source d te)) =
          [x] ++ drainBody C fuel (.reconstructed pre1 (.source d te)) := by
        simp [drainBody, bodyRead]
      rw [this, ih pre1 d te (by simp at h; omega)]
      simp
    | nil =>
      cases d with
      | nil => simp [drainBody, bodyRead]
      | cons y d1 =>
        have : drainBody C (fuel + 1) (.reconstructed [] (.source (y :: d1) te)) =
            [y] ++ drainBody C fuel (.reconstructed [] (.source d1 te)) := by
          simp [drainBody, bodyRead]
        rw [this, ih [] d1 te (by simp at h ⊢; omega)]
        simp

/-- C7: in the deflate branch with a successful 2-byte peek, the stream the
selected decoder reads from — or the passthrough body when no decoder is
attached — yields, when drained, exactly the two peeked bytes followed by
the rest of the original source; no byte is lost or reordered. -/
theorem deflate_reconstruction_preserves_bytes (C : Codecs) (res : Response)
    (b0 b1 : Nat) (rest : List Nat) (te : Option GoError) (fuel : Nat)
    (hce : headerGet res.Header contentEncodingKey = deflateTok)
    (hb : res.Body = .source (b0 :: b1 :: rest) te)
    (hfuel : rest.length + 3 ≤ fuel) :
    drainBody C fuel (handedBody (DecompressBody C res).Body) =
      b0 :: b1 :: rest := by
  rw [decompressBody_deflate_source_eq C res b0 b1 rest te hce hb]
  have hdrain :
      drainBody C fuel (.reconstructed [b0, b1] (.source rest te)) =
        b0 :: b1 :: rest := by
    have := drainBody_reconstructed_source C fuel [b0, b1] rest te
      (by simp; omega)
    simpa using this
  dsimp only
  split
  · simpa [handedBody] using hdrain
  · split
    · simpa [handedBody] using hdrain
    · simpa [handedBody] using hdrain

/-- Witness for C7: draining the reconstructed stream handed to the zlib
decoder for the concrete body `0x78 0x9C 0x07` returns those three bytes. -/
theorem deflate_reconstruction_preserves_bytes_witness :
    drainBody testC 4
      (handedBody (DecompressBody testC
        ⟨[(contentEncodingKey, deflateTok)],
          .source [0x78, 0x9C, 7] none, false, 3⟩).Body) = [0x78, 0x9C, 7] :=
  deflate_reconstruction_preserves_bytes testC
    ⟨[(contentEncodingKey, deflateTok)], .source [0x78, 0x9C, 7] none, false, 3⟩
    0x78 0x9C [7] none 4 rfl rfl (by decide)

/-- C8: when the 2-byte peek cannot be filled, the deflate branch returns at
once: no wrapper or reconstruction is attached, the body is still the bare
source stream (its up-to-2 peeked bytes consumed, as `io.ReadFull` read
them from the handle in place), and headers, flag and length are untouched;
`DecompressBody` itself reports nothing — the peek error is swallowed. -/
theorem deflate_peek_failure_noop (C : Codecs) (res : Response)
    (d : List Nat) (te : Option GoError)
    (hce : headerGet res.Header contentEncodingKey = deflateTok)
    (hb : res.Body = .source d te)
    (hshort : d.length < 2) :
    DecompressBody C res = { res with Body := .source [] te } := by
  simp only [DecompressBody, hce, hb]
  rw [if_neg (by decide), if_neg (by decide), if_pos trivial]
  match d, hshort with
  | [], _ => simp [readFull2, readAtLeastLoop, bodyRead]
  | [x], _ => simp [readFull2, readAtLeastLoop, bodyRead]

/-- Witness for C8: a one-byte deflate body is left as the consumed bare
source stream with every other field unchanged. -/
theorem deflate_peek_failure_noop_witness :
    DecompressBody testC
      ⟨[(contentEncodingKey, deflateTok)], .source [7] none, false, 1⟩ =
      ⟨[(contentEncodingKey, deflateTok)], .source [] none, false, 1⟩ :=
  deflate_peek_failure_noop testC
    ⟨[(contentEncodingKey, deflateTok)], .source [7] none, false, 1⟩
    [7] none rfl rfl (by decide)

end Fhttp
